import Mathlib

/-!
Verification development for the gps repository (glaunch GPU launcher).

Shallow embedding of the relevant C++ code:
  - src/nvml_common.hh    : device_information construction, panic_on_failure
  - src/nvml_common.cc    : get_readable_size, get_size_suffix_map, get_duration_suffix_map
  - src/glaunch.cc        : Configurations (command line parsing), get_available_devices,
                            the wait-for-free-memory loop, device selection, do_launch and
                            the supervisor in main.

Machine integers are modelled as Nat with explicit reduction modulo 2 ^ 32
(unsigned int) and 2 ^ 64 (unsigned long long) where the C code narrows or
may wrap.  C strings are modelled as List Char.  Code that can call
exit(...) is modelled in the Except monad, with the process exit code as
the error value.
-/

abbrev Str := List Char

/-- C tolower in the default locale, restricted to the ASCII letters actually
compared against (all lookup keys are lowercase ASCII). -/
def toLowerAscii (c : Char) : Char :=
  if 'A' ≤ c && c ≤ 'Z' then Char.ofNat (c.toNat + 32) else c

def toLowerStr (s : Str) : Str := s.map toLowerAscii

/-- C isspace in the default locale (space, tab, newline, vertical tab,
form feed, carriage return). -/
def isCSpace (c : Char) : Bool :=
  c == ' ' || c == '\t' || c == '\n' || c == '\x0b' || c == '\x0c' || c == '\r'

def isDigitChar (c : Char) : Bool := '0' ≤ c && c ≤ '9'

/-- Consume leading decimal digits, accumulating the value and the number of
characters consumed. -/
def takeDigits : List Char → Nat × Nat → Nat × Nat
  | [], acc => acc
  | c :: rest, (v, n) =>
    if isDigitChar c then takeDigits rest (v * 10 + (c.toNat - '0'.toNat), n + 1)
    else (v, n)

/-- Common scanning part of std::stoi / std::stoull (strtol-family, base 10):
skip whitespace, then an optional sign, then at least one digit.  Returns
(negative sign seen, magnitude, index one past the last digit), or none when
no digits could be consumed (invalid_argument). -/
def scanNumber (s : Str) : Option (Bool × Nat × Nat) :=
  let ws := (s.takeWhile isCSpace).length
  let rest := s.drop ws
  let signLen : Nat := match rest with
    | '-' :: _ => 1
    | '+' :: _ => 1
    | _ => 0
  let neg : Bool := match rest with
    | '-' :: _ => true
    | _ => false
  let (m, nd) := takeDigits (rest.drop signLen) (0, 0)
  if nd = 0 then none else some (neg, m, ws + signLen + nd)

/-- std::stoull with base 10: result value (as the unsigned 64-bit number the
call returns) and the position one past the last consumed digit, or none when
the call throws (invalid_argument or out_of_range). A leading minus sign
negates modulo 2 ^ 64, as strtoull does. -/
def stoull (s : Str) : Option (Nat × Nat) :=
  match scanNumber s with
  | none => none
  | some (neg, m, pos) =>
    if m ≥ 2 ^ 64 then none
    else some ((if neg then (2 ^ 64 - m) % 2 ^ 64 else m), pos)

/-- std::stoi with base 10: signed result and end position, or none when the
call throws. -/
def stoi (s : Str) : Option (Int × Nat) :=
  match scanNumber s with
  | none => none
  | some (neg, m, pos) =>
    if neg then
      if m > 2 ^ 31 then none else some (-(m : Int), pos)
    else
      if m > 2 ^ 31 - 1 then none else some ((m : Int), pos)

/-- get_size_suffix_map from src/nvml_common.cc: size suffix to multiplier. -/
def size_suffix_map : List (Str × Nat) :=
  [("kib".data, 1024), ("kb".data, 1024), ("k".data, 1024),
   ("mib".data, 1024 * 1024), ("mb".data, 1024 * 1024), ("m".data, 1024 * 1024),
   ("gib".data, 1024 * 1024 * 1024), ("gb".data, 1024 * 1024 * 1024),
   ("g".data, 1024 * 1024 * 1024),
   ("tib".data, 1024 * 1024 * 1024 * 1024), ("tb".data, 1024 * 1024 * 1024 * 1024),
   ("t".data, 1024 * 1024 * 1024 * 1024),
   ("pib".data, 1024 * 1024 * 1024 * 1024 * 1024),
   ("pb".data, 1024 * 1024 * 1024 * 1024 * 1024),
   ("p".data, 1024 * 1024 * 1024 * 1024 * 1024)]

/-- get_duration_suffix_map from src/nvml_common.cc: duration suffix to
multiplier in seconds. -/
def duration_suffix_map : List (Str × Nat) :=
  [("m".data, 60), ("minute".data, 60), ("minutes".data, 60),
   ("h".data, 60 * 60), ("hour".data, 60 * 60), ("hours".data, 60 * 60),
   ("d".data, 60 * 60 * 24), ("day".data, 60 * 60 * 24), ("days".data, 60 * 60 * 24)]

/-! ## Device model (src/nvml_common.hh) -/

/-- NVML sentinel (-1) stored into the unsigned long long memory fields when
nvmlDeviceGetMemoryInfo fails (vendor header nvml.h, external collaborator). -/
def NVML_VALUE_NOT_AVAILABLE : Nat := 2 ^ 64 - 1

structure nvmlMemory where
  free : Nat
  used : Nat
  total : Nat
deriving DecidableEq

/-- The fields of struct device_information used by glaunch. -/
structure device_information where
  id : Nat
  name : Str
  memory : nvmlMemory
deriving DecidableEq

/-- Answers the NVML library gives for one device index while
device_information is being constructed (external collaborator modelled as
an oracle): whether the handle opens, and the results of the index, name and
memory queries (none = the query fails). -/
structure DeviceQuery where
  openOk : Bool
  index : Option Nat
  name : Option Str
  memory : Option (Nat × Nat × Nat)

/-- Constructor device_information::device_information
(src/nvml_common.hh lines 70-94): every failing query is replaced by a
sentinel (id: (unsigned int)-1, name: empty, memory fields:
NVML_VALUE_NOT_AVAILABLE) and construction always completes. -/
def device_information.fromQuery (q : DeviceQuery) : device_information :=
  { id := match q.index with
      | some v => v % 2 ^ 32
      | none => 2 ^ 32 - 1
    name := match q.name with
      | some n => n
      | none => []
    memory := match q.memory with
      | some (f, u, t) => ⟨f, u, t⟩
      | none => ⟨NVML_VALUE_NOT_AVAILABLE, NVML_VALUE_NOT_AVAILABLE, NVML_VALUE_NOT_AVAILABLE⟩ }

/-! ## Configurations (src/glaunch.cc) -/

inductive SelectionPolicy where
  | BestFit
  | WorstFit
deriving DecidableEq

/-- Configurations::NoEstimation = (unsigned long long)-1. -/
def NoEstimation : Nat := 2 ^ 64 - 1

structure Configurations where
  break_point : Nat
  gpu_count : Nat
  memory_estimation : Nat
  policy : SelectionPolicy
  timing : Bool
  logging_path : Str
  monitor_gpu_memory : Nat
  wait_memory_timeout : Nat
  wait_memory_interval : Nat
deriving DecidableEq

/-- Field defaults of Configurations before option parsing. -/
def initConfig : Configurations :=
  { break_point := 1
    gpu_count := 1
    memory_estimation := NoEstimation
    policy := SelectionPolicy.WorstFit
    timing := false
    logging_path := []
    monitor_gpu_memory := 0
    wait_memory_timeout := 0
    wait_memory_interval := 0 }

/-! ## get_available_devices (src/glaunch.cc lines 423-461) -/

/-- Comparator handed to std::sort: lhs.memory.free > rhs.memory.free.  A
sequence is sorted for this strict weak order exactly when it is pairwise
non-increasing in free memory, which is the relation below. -/
def deviceDescOrder (a b : device_information) : Prop :=
  b.memory.free ≤ a.memory.free

instance : DecidableRel deviceDescOrder := fun a b =>
  inferInstanceAs (Decidable (b.memory.free ≤ a.memory.free))

instance : IsTotal device_information deviceDescOrder :=
  ⟨fun a b => (Nat.le_total b.memory.free a.memory.free).imp id id⟩

instance : IsTrans device_information deviceDescOrder :=
  ⟨fun _ _ _ hab hbc => Nat.le_trans hbc hab⟩

/-- The std::sort call in get_available_devices (decreasing free memory).
std::sort is unstable; the spec accepts any order on ties, and the model
fixes insertion sort as the concrete choice. -/
def sortDevices (l : List device_information) : List device_information :=
  l.insertionSort deviceDescOrder

/-- The copy_if predicate in get_available_devices: keep a device when no
memory estimation was configured, else when the estimation is strictly below
the free memory of the device. -/
def budgetPred (config : Configurations) (device : device_information) : Bool :=
  if config.memory_estimation = NoEstimation then true
  else decide (config.memory_estimation < device.memory.free)

/-- get_available_devices starting from an already-constructed snapshot
(the devices_ vector): sort by decreasing free memory, then filter by the
memory budget. -/
def get_available_devices_core (config : Configurations)
    (snapshot : List device_information) : List device_information :=
  (sortDevices snapshot).filter (budgetPred config)

/-- The enumeration loop of get_available_devices (lines 428-436): for each
index, a device whose handle fails to open is skipped (continue), otherwise
device_information is constructed from the NVML answers. -/
def inventoryDevices (env : List DeviceQuery) : List device_information :=
  env.filterMap fun q =>
    if q.openOk then some (device_information.fromQuery q) else none

/-- Full get_available_devices over the NVML oracle. -/
def get_available_devices (config : Configurations) (env : List DeviceQuery) :
    List device_information :=
  get_available_devices_core config (inventoryDevices env)

/-! ## Device selection in main (src/glaunch.cc lines 498-517) -/

/-- Start index of the selected window: BestFit starts gpu_count entries
before the end, WorstFit starts at the beginning. -/
def selectionStart (config : Configurations) (availCount : Nat) : Nat :=
  match config.policy with
  | SelectionPolicy.BestFit => availCount - config.gpu_count
  | SelectionPolicy.WorstFit => 0

/-- The selection loop in main: gpu_count consecutive entries of the
available list starting at selectionStart. -/
def selectedDevices (config : Configurations) (avail : List device_information) :
    List device_information :=
  (avail.drop (selectionStart config avail.length)).take config.gpu_count

/-- Fit selection over a snapshot: fails (none) when fewer than gpu_count
devices pass the budget filter (the wait loop then retries), otherwise the
window of gpu_count devices given by the policy. -/
def select (config : Configurations) (snapshot : List device_information) :
    Option (List device_information) :=
  let avail := get_available_devices_core config snapshot
  if avail.length < config.gpu_count then none
  else some (selectedDevices config avail)

/-- Ids of the selected devices, in selection order. -/
def selectedIds (config : Configurations) (avail : List device_information) :
    List Nat :=
  (selectedDevices config avail).map device_information.id

/-- The devices_to_use string built in main and stored into
CUDA_VISIBLE_DEVICES: decimal ids joined with commas. -/
def devicesToUse (ids : List Nat) : Str :=
  List.intercalate [','] (ids.map fun i => (Nat.repr i).data)


/-! ## Wait-for-free-memory loop (src/glaunch.cc lines 476-497) -/

def EINTR : Int := 4
def ENOEXEC : Int := 8
def EAGAIN : Int := 11
def ENOMEM : Int := 12

/-- Seconds the loop body decides to sleep:
unsigned int time_to_timeout = timeout - elapsed (narrowing to 32 bits);
unsigned int time_to_sleep = min(time_to_timeout, interval). -/
def sleepAmount (timeout elapsed interval : Nat) : Nat :=
  let time_to_timeout := (timeout - elapsed) % 2 ^ 32
  (if time_to_timeout < interval then time_to_timeout else interval) % 2 ^ 32

/-- The inner sleep loop: while (time_to_sleep > 0) time_to_sleep =
sleep(time_to_sleep).  POSIX sleep returns the unslept remainder when a
signal interrupts it.  interruptions lists, for each successive sleep call,
how many seconds pass before a signal arrives; once the list is exhausted
the call completes undisturbed.  The result is the total wall time spent in
the loop. -/
def sleepLoopTime (timeToSleep : Nat) : List Nat → Nat
  | [] => timeToSleep
  | a :: rest =>
    if timeToSleep = 0 then 0
    else min a timeToSleep + sleepLoopTime (timeToSleep - min a timeToSleep) rest

/-- Result of the wait-for-free-memory loop.  elapsed is the wall time since
start_wait_time at which the loop ends, polls the number of
get_available_devices calls made.  fuelOut marks exhaustion of the fuel
parameter only (the loop itself would keep polling). -/
inductive WaitOutcome where
  | satisfied (elapsed polls : Nat) (avail : List device_information)
  | timedOut (elapsed polls : Nat)
  | fuelOut
deriving DecidableEq

/-- The wait loop of main, over a time-indexed snapshot oracle.  Polling is
counted as instantaneous; only the sleep between polls advances the clock.
One iteration: poll; break when at least gpu_count devices are available;
report timeout when the elapsed time has reached wait_memory_timeout;
otherwise sleep and retry. -/
def waitLoop (config : Configurations) (snapshot : Nat → List device_information) :
    Nat → Nat → Nat → WaitOutcome
  | 0, _, _ => WaitOutcome.fuelOut
  | fuel + 1, elapsed, polls =>
    let avail := get_available_devices_core config (snapshot elapsed)
    if config.gpu_count ≤ avail.length then
      WaitOutcome.satisfied elapsed (polls + 1) avail
    else if config.wait_memory_timeout ≤ elapsed then
      WaitOutcome.timedOut elapsed (polls + 1)
    else
      waitLoop config snapshot fuel
        (elapsed + sleepAmount config.wait_memory_timeout elapsed config.wait_memory_interval)
        (polls + 1)

/-- Return value of main when the wait loop gives up: -ENOMEM
(line 489: return -ENOMEM). -/
def mainWaitReturn (config : Configurations) (snapshot : Nat → List device_information)
    (fuel : Nat) : Option Int :=
  match waitLoop config snapshot fuel 0 0 with
  | WaitOutcome.timedOut _ _ => some (-ENOMEM)
  | _ => none

/-! ## Supervisor (src/glaunch.cc lines 570-589) and do_launch (384-387) -/

/-- The (signed char) cast of an integer value, as used by the glibc
wait-status macros. -/
def signedChar (x : Nat) : Int :=
  if x % 256 < 128 then Int.ofNat (x % 256) else Int.ofNat (x % 256) - 256

/-- WIFEXITED(status): low seven bits zero. -/
def WIFEXITED (status : Nat) : Bool := status % 128 == 0

/-- WEXITSTATUS(status): (status & 0xff00) >> 8. -/
def WEXITSTATUS (status : Nat) : Nat := status / 256 % 256

/-- WIFSIGNALED(status): ((signed char)(((status & 0x7f) + 1)) >> 1) > 0,
with the arithmetic right shift written as floor division by 2. -/
def WIFSIGNALED (status : Nat) : Bool :=
  decide (0 < Int.fdiv (signedChar (status % 128 + 1)) 2)

/-- WTERMSIG(status): status & 0x7f. -/
def WTERMSIG (status : Nat) : Nat := status % 128

/-- The classification of the child wait status in main (lines 572-582):
normal exit propagates the exit code, a signaled child yields -EINTR after
the signal number is reported, anything else yields -EAGAIN. -/
def supervisorReturn (status : Nat) : Int :=
  if WIFEXITED status then (WEXITSTATUS status : Int)
  else if WIFSIGNALED status then -EINTR
  else -EAGAIN

/-- Outcome of the execvp call in do_launch: either the process image is
replaced (the function never returns) or exec fails. -/
inductive ExecOutcome where
  | replaced
  | failed
deriving DecidableEq

/-- Return value of do_launch (lines 384-387): nothing on a successful exec,
-ENOEXEC when execvp fails. -/
def do_launch_return : ExecOutcome → Option Int
  | ExecOutcome.replaced => none
  | ExecOutcome.failed => some (-ENOEXEC)

/-! ## get_readable_size (src/nvml_common.cc lines 79-93)

The C code computes with long double.  On the target (x86-64 glibc) long
double has a 64-bit significand, so a 64-bit byte count converts exactly,
each division by 1024 only lowers the exponent and stays exact, and the
comparison with 1000 and the final std::round are therefore exact rational
arithmetic, which the definitions below perform on Nat. -/

/-- The suffix-selection loop: while (selection < 5) if (temporary / 1024 >
1000) { temporary /= 1024; selection += 1 } else break.  With temporary =
value / 1024 ^ selection held exactly, the test is value > 1000 * 1024 ^
(selection + 1). -/
def readableSizeSelect (value : Nat) : Nat → Nat → Nat
  | selection, 0 => selection
  | selection, fuel + 1 =>
    if 1000 * 1024 ^ (selection + 1) < value then
      readableSizeSelect value (selection + 1) fuel
    else selection

/-- std::round (half away from zero) of value / m for nonnegative value and
positive m: floor(value / m + 1 / 2). -/
def roundDiv (value m : Nat) : Nat := (2 * value + m) / (2 * m)

def readableSizeSuffixes : List Str :=
  ["B".data, "KiB".data, "MiB".data, "GiB".data, "TiB".data, "PiB".data]

/-- The (rounded integer, suffix index) pair get_readable_size prints. -/
def get_readable_size_pair (value : Nat) : Nat × Nat :=
  let selection := readableSizeSelect value 0 5
  (roundDiv value (1024 ^ selection), selection)

/-- get_readable_size: decimal rounded value followed by the binary suffix. -/
def get_readable_size (value : Nat) : Str :=
  let p := get_readable_size_pair value
  (Nat.repr p.1).data ++ readableSizeSuffixes.getD p.2 []


/-! ## Command line parsing (src/glaunch.cc lines 38-354)

Functions that can reach exit(...) return Except Nat, the error value being
the process exit status (EXIT_FAILURE = 1; --help exits with
EXIT_SUCCESS = 0). -/

/-- Configurations::full_convert_ull instantiated at T = unsigned int, as
used by parse_gpu_count: std::stoi, then the int result converted to
unsigned long long (sign extension modulo 2 ^ 64) and cast down to
unsigned int (modulo 2 ^ 32).  A conversion failure exits. -/
def full_convert_ull_uint (value : Str) : Except Nat Nat :=
  match stoi value with
  | none => Except.error 1
  | some (r, pos) =>
    if value.length = 0 ∨ pos = 0 then Except.error 1
    else Except.ok ((r % (2 ^ 64 : Int)).toNat % 2 ^ 32)

/-- Configurations::duration_saver: stoull, then an optional duration suffix
looked up after lowercasing; unknown suffixes exit.  The multiplication is
unsigned long long arithmetic. -/
def duration_saver (arg : Str) : Except Nat Nat :=
  match stoull arg with
  | none => Except.error 1
  | some (v, pos) =>
    if pos ≠ arg.length then
      match List.lookup (toLowerStr (arg.drop pos)) duration_suffix_map with
      | none => Except.error 1
      | some mult => Except.ok (v * mult % 2 ^ 64)
    else Except.ok v

/-- Configurations::parse_gpu_count (the multiple-instance warning only
prints). -/
def parse_gpu_count (cfg : Configurations) (arg : Str) : Except Nat Configurations :=
  match full_convert_ull_uint arg with
  | Except.error e => Except.error e
  | Except.ok v => Except.ok { cfg with gpu_count := v }

/-- Configurations::parse_memory_estimation: stoull plus an optional size
suffix; the large-value message only prints. -/
def parse_memory_estimation (cfg : Configurations) (arg : Str) : Except Nat Configurations :=
  match stoull arg with
  | none => Except.error 1
  | some (v, pos) =>
    if pos ≠ arg.length then
      match List.lookup (toLowerStr (arg.drop pos)) size_suffix_map with
      | none => Except.error 1
      | some mult => Except.ok { cfg with memory_estimation := v * mult % 2 ^ 64 }
    else Except.ok { cfg with memory_estimation := v }

/-- Configurations::parse_policy. -/
def parse_policy (cfg : Configurations) (arg : Str) : Except Nat Configurations :=
  let test := toLowerStr arg
  if test = "worst".data ∨ test = "worstfit".data then
    Except.ok { cfg with policy := SelectionPolicy.WorstFit }
  else if test = "best".data ∨ test = "bestfit".data then
    Except.ok { cfg with policy := SelectionPolicy.BestFit }
  else Except.error 1

/-- Configurations::parse_wait_memory_timeout: store the duration, then
default the interval to 60 seconds when it is still zero. -/
def parse_wait_memory_timeout (cfg : Configurations) (arg : Str) : Except Nat Configurations :=
  match duration_saver arg with
  | Except.error e => Except.error e
  | Except.ok v =>
    Except.ok { cfg with
      wait_memory_timeout := v
      wait_memory_interval :=
        if cfg.wait_memory_interval = 0 then 60 else cfg.wait_memory_interval }

/-- Configurations::parse_wait_memory_interval: store the duration, then
default the timeout to 3600 seconds when it is still zero. -/
def parse_wait_memory_interval (cfg : Configurations) (arg : Str) : Except Nat Configurations :=
  match duration_saver arg with
  | Except.error e => Except.error e
  | Except.ok v =>
    Except.ok { cfg with
      wait_memory_interval := v
      wait_memory_timeout :=
        if cfg.wait_memory_timeout = 0 then 3600 else cfg.wait_memory_timeout }

/-- The nine options registered in the Configurations constructor, in
registration order. -/
inductive OptKind where
  | gpus | memoryBudget | policyOpt | helpOpt | timeOpt | logOpt
  | watchMemory | waitTimeout | waitInterval
deriving DecidableEq

def optName : OptKind → Str
  | OptKind.gpus => "--gpus".data
  | OptKind.memoryBudget => "--memory-budget".data
  | OptKind.policyOpt => "--policy".data
  | OptKind.helpOpt => "--help".data
  | OptKind.timeOpt => "--time".data
  | OptKind.logOpt => "--log".data
  | OptKind.watchMemory => "--watch-memory".data
  | OptKind.waitTimeout => "--wait-timeout".data
  | OptKind.waitInterval => "--wait-interval".data

def optArgc : OptKind → Nat
  | OptKind.helpOpt => 0
  | OptKind.timeOpt => 0
  | _ => 1

/-- The parser attached to each option, applied to its argument (none for
zero-argument options).  --help prints usage and exits with EXIT_SUCCESS.
The catch-all models the assert on the argument count, which the dispatcher
makes unreachable. -/
def applyOpt : OptKind → Configurations → Option Str → Except Nat Configurations
  | OptKind.gpus, cfg, some a => parse_gpu_count cfg a
  | OptKind.memoryBudget, cfg, some a => parse_memory_estimation cfg a
  | OptKind.policyOpt, cfg, some a => parse_policy cfg a
  | OptKind.helpOpt, _, none => Except.error 0
  | OptKind.timeOpt, cfg, none => Except.ok { cfg with timing := true }
  | OptKind.logOpt, cfg, some a => Except.ok { cfg with logging_path := a }
  | OptKind.watchMemory, cfg, some a =>
    match duration_saver a with
    | Except.error e => Except.error e
    | Except.ok v => Except.ok { cfg with monitor_gpu_memory := v }
  | OptKind.waitTimeout, cfg, some a => parse_wait_memory_timeout cfg a
  | OptKind.waitInterval, cfg, some a => parse_wait_memory_interval cfg a
  | _, _, _ => Except.error 1

/-- One parsed option occurrence: which option, and the argument string
handed to its parser (ghost trace used only to state properties about which
options a command line supplied). -/
abbrev OptEvent := OptKind × Option Str

/-- Configurations::parser_dispatcher: either the component equals the
option name and the arguments follow it (missing arguments exit), or a
one-argument option is given as name=value; anything else that reached the
dispatcher exits.  Returns the updated configuration, the new break point
and the recorded event. -/
def parser_dispatcher (k : OptKind) (bp : Nat) (args : List Str)
    (cfg : Configurations) : Except Nat (Configurations × Nat × OptEvent) :=
  let a := args.getD bp []
  if a = optName k then
    if args.length ≤ bp + optArgc k then Except.error 1
    else
      let arg := if optArgc k = 1 then some (args.getD (bp + 1) []) else none
      match applyOpt k cfg arg with
      | Except.error e => Except.error e
      | Except.ok cfg1 => Except.ok (cfg1, bp + 1 + optArgc k, (k, arg))
  else if optArgc k = 1 ∧ a.take ((optName k).length + 1) = optName k ++ ['='] then
    let arg := some (a.drop ((optName k).length + 1))
    match applyOpt k cfg arg with
    | Except.error e => Except.error e
    | Except.ok cfg1 => Except.ok (cfg1, bp + 1, (k, arg))
  else Except.error 1

/-- Configurations::test_option chained over the option list: the first
option whose name is a leading substring of the component is dispatched;
no match exits with an unrecognized-option error. -/
def tryOptions (bp : Nat) (args : List Str) (cfg : Configurations) :
    List OptKind → Except Nat (Configurations × Nat × OptEvent)
  | [] => Except.error 1
  | k :: rest =>
    if (args.getD bp []).take (optName k).length = optName k then
      parser_dispatcher k bp args cfg
    else tryOptions bp args cfg rest

def optionsOrder : List OptKind :=
  [OptKind.gpus, OptKind.memoryBudget, OptKind.policyOpt, OptKind.helpOpt,
   OptKind.timeOpt, OptKind.logOpt, OptKind.watchMemory, OptKind.waitTimeout,
   OptKind.waitInterval]

/-- The option loop of the Configurations constructor: while the current
component starts with -- and is not the bare -- terminator, dispatch it;
afterwards break_point indexes the first command line component after the
options.  The fuel only bounds the iteration count; every iteration
advances the break point, so args.length + 1 units are always enough. -/
def parseLoopT (args : List Str) :
    Nat → Nat → Configurations → Except Nat (Configurations × List OptEvent)
  | 0, _, _ => Except.error 1
  | fuel + 1, bp, cfg =>
    if bp < args.length ∧ (args.getD bp []).take 2 = ['-', '-'] then
      if (args.getD bp []).length = 2 then
        Except.ok ({ cfg with break_point := bp + 1 }, [])
      else
        match tryOptions bp args cfg optionsOrder with
        | Except.error e => Except.error e
        | Except.ok (cfg1, bp1, ev) =>
          match parseLoopT args fuel bp1 cfg1 with
          | Except.error e => Except.error e
          | Except.ok (cfg2, evs) => Except.ok (cfg2, ev :: evs)
    else Except.ok ({ cfg with break_point := bp }, [])

instance {ε α : Type _} [DecidableEq ε] [DecidableEq α] : DecidableEq (Except ε α) := fun x y =>
  match x, y with
  | Except.error a, Except.error b =>
    if h : a = b then Decidable.isTrue (congrArg Except.error h)
    else Decidable.isFalse (fun hx => h (Except.error.inj hx))
  | Except.ok a, Except.ok b =>
    if h : a = b then Decidable.isTrue (congrArg Except.ok h)
    else Decidable.isFalse (fun hx => h (Except.ok.inj hx))
  | Except.error _, Except.ok _ => Decidable.isFalse (fun hx => Except.noConfusion hx)
  | Except.ok _, Except.error _ => Decidable.isFalse (fun hx => Except.noConfusion hx)

/-- The whole Configurations constructor over the argv vector (args includes
argv[0]), together with the ghost trace of option occurrences. -/
def Configurations.parseT (args : List Str) : Except Nat (Configurations × List OptEvent) :=
  parseLoopT args (args.length + 1) 1 initConfig

/-- The whole Configurations constructor over the argv vector. -/
def Configurations.parse (args : List Str) : Except Nat Configurations :=
  (Configurations.parseT args).map Prod.fst


/-- The three-device snapshot of the testable-properties scenario of the
spec: ids 0, 1, 2 with 8 GiB, 2 GiB and 16 GiB free. -/
def specSnapshot : List device_information :=
  [⟨0, [], ⟨8 * 2 ^ 30, 0, 8 * 2 ^ 30⟩⟩,
   ⟨1, [], ⟨2 * 2 ^ 30, 0, 2 * 2 ^ 30⟩⟩,
   ⟨2, [], ⟨16 * 2 ^ 30, 0, 16 * 2 ^ 30⟩⟩]

/-- One GPU with a 4 GiB budget, WorstFit (the defaults otherwise). -/
def specBudgetConfig : Configurations :=
  { initConfig with memory_estimation := 4 * 2 ^ 30 }

/-- Coupling invariant of the two wait fields, indexed by which of the two
wait options have been applied so far (under nonzero supplied values). -/
def WaitFieldsInv (suppliedT suppliedI : Bool) (cfg : Configurations) : Prop :=
  match suppliedT, suppliedI with
  | false, false => cfg.wait_memory_timeout = 0 ∧ cfg.wait_memory_interval = 0
  | true, false => cfg.wait_memory_timeout ≠ 0 ∧ cfg.wait_memory_interval = 60
  | false, true => cfg.wait_memory_timeout = 3600 ∧ cfg.wait_memory_interval ≠ 0
  | true, true => cfg.wait_memory_timeout ≠ 0 ∧ cfg.wait_memory_interval ≠ 0

/-- All wait-option occurrences of a trace carry nonzero duration values. -/
def NonzeroWaitValues (trace : List OptEvent) : Prop :=
  ∀ k s, (k, some s) ∈ trace →
    (k = OptKind.waitTimeout ∨ k = OptKind.waitInterval) →
    ∀ v, duration_saver s = Except.ok v → v ≠ 0

/-! ## Helper lemmas -/

theorem pairwise_take_drop {α : Type _} {r : α → α → Prop} {l : List α}
    (h : l.Pairwise r) (n : Nat) :
    ∀ x ∈ l.take n, ∀ y ∈ l.drop n, r x y := by
  have h2 : (l.take n ++ l.drop n).Pairwise r := by
    rw [List.take_append_drop]; exact h
  exact (List.pairwise_append.mp h2).2.2

theorem sleepAmount_le (timeout elapsed interval : Nat) :
    sleepAmount timeout elapsed interval ≤ timeout - elapsed := by
  simp only [sleepAmount]
  split <;> omega

/-! ## Claim C4 -/

/-- Claim C4 counterexample: with the no-estimation sentinel the budget
filter keeps even a device whose free memory is zero, so the claim that a
zero-free device does not qualify is false on the concrete one-device
snapshot below (initConfig carries the NoEstimation sentinel). -/
theorem C4_counterexample :
    initConfig.memory_estimation = NoEstimation ∧
    (⟨0, [], ⟨0, 0, 0⟩⟩ : device_information).memory.free = 0 ∧
    get_available_devices_core initConfig [⟨0, [], ⟨0, 0, 0⟩⟩] =
      [⟨0, [], ⟨0, 0, 0⟩⟩] := by decide

/-- Claim C4 (amended): when memory_estimation is the no-estimation
sentinel, the budget filter retains every device of the snapshot
unconditionally — including devices with zero free memory — so
get_available_devices only sorts. -/
theorem C4_noEstimation_keeps_all (config : Configurations)
    (snapshot : List device_information)
    (h : config.memory_estimation = NoEstimation) :
    get_available_devices_core config snapshot = sortDevices snapshot := by
  unfold get_available_devices_core
  apply List.filter_eq_self.mpr
  intro a _
  simp [budgetPred, h]

/-- Witness for C4_noEstimation_keeps_all at a concrete snapshot. -/
theorem C4_witness :
    initConfig.memory_estimation = NoEstimation ∧
    get_available_devices_core initConfig [⟨0, [], ⟨0, 0, 0⟩⟩] =
      sortDevices [⟨0, [], ⟨0, 0, 0⟩⟩] :=
  ⟨by decide, C4_noEstimation_keeps_all initConfig [⟨0, [], ⟨0, 0, 0⟩⟩] (by decide)⟩

/-! ## Claim C3 -/

/-- Claim C3 counterexample: a device whose memory query fails is not
skipped — it appears in the list returned by get_available_devices, with
the NVML_VALUE_NOT_AVAILABLE sentinel as its memory statistics (and, free
being the sentinel, it even passes every budget filter). -/
theorem C3_counterexample :
    (⟨true, some 0, some [], none⟩ : DeviceQuery).memory = none ∧
    get_available_devices initConfig [⟨true, some 0, some [], none⟩] =
      [⟨0, [], ⟨NVML_VALUE_NOT_AVAILABLE, NVML_VALUE_NOT_AVAILABLE,
                NVML_VALUE_NOT_AVAILABLE⟩⟩] := by decide

/-- Claim C3 (amended): a device whose handle fails to open is skipped and
contributes nothing to the snapshot (the inventory is exactly the
successfully opened queries, in index order), and no single failure aborts
the query; but a device whose memory query fails is kept, entering the
snapshot with all memory fields set to the NVML_VALUE_NOT_AVAILABLE
sentinel. -/
theorem C3_inventory_failures (env : List DeviceQuery) :
    inventoryDevices env =
      (env.filter (fun q => q.openOk)).map device_information.fromQuery ∧
    ∀ q ∈ env, q.openOk = true → q.memory = none →
      device_information.fromQuery q ∈ inventoryDevices env ∧
      (device_information.fromQuery q).memory =
        ⟨NVML_VALUE_NOT_AVAILABLE, NVML_VALUE_NOT_AVAILABLE,
         NVML_VALUE_NOT_AVAILABLE⟩ := by
  constructor
  · induction env with
    | nil => rfl
    | cons q rest ih =>
      simp only [inventoryDevices, List.filterMap_cons] at *
      cases hq : q.openOk <;> simp [hq, List.filter_cons, ih]
  · intro q hq hopen hmem
    refine ⟨List.mem_filterMap.mpr ⟨q, hq, by simp [hopen]⟩, ?_⟩
    simp [device_information.fromQuery, hmem]

/-- Witness for C3_inventory_failures on a concrete environment with one
memory-query failure. -/
theorem C3_witness :
    device_information.fromQuery ⟨true, some 0, some [], none⟩ ∈
      inventoryDevices [⟨true, some 0, some [], none⟩] ∧
    (device_information.fromQuery ⟨true, some 0, some [], none⟩).memory =
      ⟨NVML_VALUE_NOT_AVAILABLE, NVML_VALUE_NOT_AVAILABLE,
       NVML_VALUE_NOT_AVAILABLE⟩ :=
  (C3_inventory_failures [⟨true, some 0, some [], none⟩]).2
    ⟨true, some 0, some [], none⟩ (by simp) rfl rfl

/-! ## Claim C5 -/

/-- Claim C5: with wait_timeout zero and too few qualifying devices on the
first poll, the wait loop performs exactly one poll (polls = 1), sleeps for
zero seconds (the loop ends at elapsed time 0), and main fails with
-ENOMEM. -/
theorem C5_zero_timeout_single_poll (config : Configurations)
    (snapshot : Nat → List device_information) (fuel : Nat)
    (htimeout : config.wait_memory_timeout = 0)
    (hshort : (get_available_devices_core config (snapshot 0)).length < config.gpu_count)
    (hfuel : 1 ≤ fuel) :
    waitLoop config snapshot fuel 0 0 = WaitOutcome.timedOut 0 1 ∧
    mainWaitReturn config snapshot fuel = some (-ENOMEM) := by
  cases fuel with
  | zero => omega
  | succ n =>
    have h1 : waitLoop config snapshot (n + 1) 0 0 = WaitOutcome.timedOut 0 1 := by
      unfold waitLoop
      rw [if_neg (Nat.not_le.mpr hshort), if_pos (by omega)]
    exact ⟨h1, by unfold mainWaitReturn; rw [h1]⟩

/-- Witness for C5_zero_timeout_single_poll with no devices at all. -/
theorem C5_witness :
    waitLoop initConfig (fun _ => []) 3 0 0 = WaitOutcome.timedOut 0 1 ∧
    mainWaitReturn initConfig (fun _ => []) 3 = some (-ENOMEM) :=
  C5_zero_timeout_single_poll initConfig (fun _ => []) 3 (by decide) (by decide)
    (by decide)

/-! ## Claim C6 -/

/-- Claim C6 counterexample: with wait_timeout = 2 ^ 32 seconds, interval
60 and elapsed 0, the code sleeps 0 seconds, not
min(wait_interval, time_remaining) = 60: the remaining time is narrowed to
a 32-bit unsigned int before the comparison. -/
theorem C6_counterexample :
    sleepAmount (2 ^ 32) 0 60 = 0 ∧ min 60 (2 ^ 32 - 0) = 60 := by decide

/-- Claim C6 (amended): (1) whenever the remaining time fits in 32 bits the
sleep between failed polls is exactly min(wait_interval, remaining time);
(2) the interrupted sleep is resumed for exactly the remaining duration, so
the loop always spends exactly the intended wall time regardless of the
interruption pattern; (3) starting at or below the timeout, whenever the
wait loop reports timeout failure the elapsed wall time (sleep time being
the only modelled time) has not exceeded wait_memory_timeout. -/
theorem C6_sleep_and_bound (timeout elapsed interval : Nat) :
    (timeout - elapsed < 2 ^ 32 →
      sleepAmount timeout elapsed interval = min interval (timeout - elapsed)) ∧
    (∀ timeToSleep ints, sleepLoopTime timeToSleep ints = timeToSleep) ∧
    (∀ (config : Configurations) (snapshot : Nat → List device_information)
        (fuel elapsed0 polls e p : Nat),
      elapsed0 ≤ config.wait_memory_timeout →
      waitLoop config snapshot fuel elapsed0 polls = WaitOutcome.timedOut e p →
      e ≤ config.wait_memory_timeout) := by
  refine ⟨?_, ?_, ?_⟩
  · intro h
    simp only [sleepAmount]
    rw [Nat.min_def]
    split <;> split <;> omega
  · intro t ints
    induction ints generalizing t with
    | nil => rfl
    | cons a rest ih =>
      unfold sleepLoopTime
      split
      · omega
      · rw [ih]; omega
  · intro config snapshot fuel
    induction fuel with
    | zero => intro elapsed0 polls e p _ h; simp [waitLoop] at h
    | succ n ih =>
      intro elapsed0 polls e p hstart h
      simp only [waitLoop] at h
      split at h
      · cases h
      · split at h
        · cases h; exact hstart
        · exact ih _ _ _ _
            (by
              have := sleepAmount_le config.wait_memory_timeout elapsed0
                config.wait_memory_interval
              omega) h

/-- Witness for C6_sleep_and_bound at concrete inputs. -/
theorem C6_witness :
    sleepAmount 10 0 60 = min 60 (10 - 0) ∧
    sleepLoopTime 7 [2, 1] = 7 ∧
    (0 : Nat) ≤ initConfig.wait_memory_timeout :=
  ⟨(C6_sleep_and_bound 10 0 60).1 (by decide),
   (C6_sleep_and_bound 10 0 60).2.1 7 [2, 1],
   (C6_sleep_and_bound 10 0 60).2.2 initConfig (fun _ => []) 1 0 0 0 1 (by decide)
     (by decide)⟩

/-! ## Claims C1 and C2 -/

/-- Claim C1: whenever selection succeeds on a snapshot with pairwise
distinct device ids (the data-model invariant for real inventories), the
result has exactly gpu_count entries, their ids are pairwise distinct, and
every selected device is a member of the snapshot that passes the budget
filter: either no estimation is configured, or its free memory is strictly
greater than the estimation. -/
theorem C1_selection_sound (config : Configurations)
    (snapshot sel : List device_information)
    (hnodup : (snapshot.map device_information.id).Nodup)
    (hsel : select config snapshot = some sel) :
    sel.length = config.gpu_count ∧
    (sel.map device_information.id).Nodup ∧
    ∀ d ∈ sel, d ∈ snapshot ∧
      (config.memory_estimation = NoEstimation ∨
       config.memory_estimation < d.memory.free) := by
  unfold select at hsel
  by_cases hlen :
      (get_available_devices_core config snapshot).length < config.gpu_count
  · rw [if_pos hlen] at hsel; cases hsel
  · rw [if_neg hlen] at hsel
    have hk : config.gpu_count ≤ (get_available_devices_core config snapshot).length :=
      Nat.not_lt.mp hlen
    obtain rfl : selectedDevices config (get_available_devices_core config snapshot) = sel :=
      Option.some.inj hsel
    have hsub : List.Sublist
        (selectedDevices config (get_available_devices_core config snapshot))
        (get_available_devices_core config snapshot) :=
      (List.take_sublist _ _).trans (List.drop_sublist _ _)
    have hperm : List.Perm (sortDevices snapshot) snapshot :=
      List.perm_insertionSort deviceDescOrder snapshot
    have hfilter : List.Sublist (get_available_devices_core config snapshot)
        (sortDevices snapshot) :=
      List.filter_sublist _
    refine ⟨?_, ?_, ?_⟩
    · have hL : (selectedDevices config (get_available_devices_core config snapshot)).length =
          min config.gpu_count
            ((get_available_devices_core config snapshot).length -
              selectionStart config (get_available_devices_core config snapshot).length) := by
        simp [selectedDevices, List.length_take, List.length_drop]
      cases hp : config.policy <;> simp [selectionStart, hp] at hL <;> omega
    · have h1 : ((sortDevices snapshot).map device_information.id).Nodup :=
        ((hperm.map device_information.id).nodup_iff).mpr hnodup
      have h2 : ((get_available_devices_core config snapshot).map device_information.id).Nodup :=
        h1.sublist (hfilter.map device_information.id)
      exact h2.sublist (hsub.map device_information.id)
    · intro d hd
      have hdavail := hsub.subset hd
      have hmem := List.mem_filter.mp hdavail
      refine ⟨hperm.subset hmem.1, ?_⟩
      by_cases hne : config.memory_estimation = NoEstimation
      · exact Or.inl hne
      · right
        have hb := hmem.2
        simpa [budgetPred, hne] using hb

/-- Witness for C1_selection_sound on the spec scenario (one GPU, 4 GiB
budget, WorstFit): the selection is the single device with id 2. -/
theorem C1_witness :
    ([⟨2, [], ⟨16 * 2 ^ 30, 0, 16 * 2 ^ 30⟩⟩] : List device_information).length =
      specBudgetConfig.gpu_count ∧
    (([⟨2, [], ⟨16 * 2 ^ 30, 0, 16 * 2 ^ 30⟩⟩] : List device_information).map
      device_information.id).Nodup ∧
    ∀ d ∈ ([⟨2, [], ⟨16 * 2 ^ 30, 0, 16 * 2 ^ 30⟩⟩] : List device_information),
      d ∈ specSnapshot ∧
      (specBudgetConfig.memory_estimation = NoEstimation ∨
       specBudgetConfig.memory_estimation < d.memory.free) :=
  C1_selection_sound specBudgetConfig specSnapshot
    [⟨2, [], ⟨16 * 2 ^ 30, 0, 16 * 2 ^ 30⟩⟩] (by decide) (by decide)

/-- Claim C2: whenever selection succeeds, under WorstFit the result is the
first gpu_count entries of the descending-free qualifying sequence and each
selected device has at least as much free memory as every non-selected
qualifying device; under BestFit the result is the last gpu_count entries
and each selected device has at most as much free memory as every
non-selected qualifying device. -/
theorem C2_policy_extremal (config : Configurations)
    (snapshot sel : List device_information)
    (hsel : select config snapshot = some sel) :
    (config.policy = SelectionPolicy.WorstFit →
      sel = (get_available_devices_core config snapshot).take config.gpu_count ∧
      ∀ d ∈ sel,
        ∀ e ∈ (get_available_devices_core config snapshot).drop config.gpu_count,
          e.memory.free ≤ d.memory.free) ∧
    (config.policy = SelectionPolicy.BestFit →
      sel = (get_available_devices_core config snapshot).drop
        ((get_available_devices_core config snapshot).length - config.gpu_count) ∧
      ∀ d ∈ sel,
        ∀ e ∈ (get_available_devices_core config snapshot).take
          ((get_available_devices_core config snapshot).length - config.gpu_count),
          d.memory.free ≤ e.memory.free) := by
  unfold select at hsel
  by_cases hlen :
      (get_available_devices_core config snapshot).length < config.gpu_count
  · rw [if_pos hlen] at hsel; cases hsel
  · rw [if_neg hlen] at hsel
    have hk : config.gpu_count ≤ (get_available_devices_core config snapshot).length :=
      Nat.not_lt.mp hlen
    obtain rfl : selectedDevices config (get_available_devices_core config snapshot) = sel :=
      Option.some.inj hsel
    have hsorted : (get_available_devices_core config snapshot).Pairwise deviceDescOrder := by
      have := List.sorted_insertionSort deviceDescOrder snapshot
      exact List.Pairwise.sublist (List.filter_sublist _) this
    constructor
    · intro hp
      have hsel_eq : selectedDevices config (get_available_devices_core config snapshot) =
          (get_available_devices_core config snapshot).take config.gpu_count := by
        simp [selectedDevices, selectionStart, hp]
      refine ⟨hsel_eq, ?_⟩
      intro d hd e he
      rw [hsel_eq] at hd
      exact pairwise_take_drop hsorted config.gpu_count d hd e he
    · intro hp
      have htake : ((get_available_devices_core config snapshot).drop
          ((get_available_devices_core config snapshot).length - config.gpu_count)).length ≤
          config.gpu_count := by
        rw [List.length_drop]; omega
      have hsel_eq : selectedDevices config (get_available_devices_core config snapshot) =
          (get_available_devices_core config snapshot).drop
            ((get_available_devices_core config snapshot).length - config.gpu_count) := by
        simp only [selectedDevices, selectionStart, hp]
        exact List.take_of_length_le htake
      refine ⟨hsel_eq, ?_⟩
      intro d hd e he
      rw [hsel_eq] at hd
      exact pairwise_take_drop hsorted
        ((get_available_devices_core config snapshot).length - config.gpu_count) e he d hd

/-- Witness for C2_policy_extremal on the spec scenario under WorstFit. -/
theorem C2_witness :
    [(⟨2, [], ⟨16 * 2 ^ 30, 0, 16 * 2 ^ 30⟩⟩ : device_information)] =
      (get_available_devices_core specBudgetConfig specSnapshot).take
        specBudgetConfig.gpu_count ∧
    ∀ d ∈ [(⟨2, [], ⟨16 * 2 ^ 30, 0, 16 * 2 ^ 30⟩⟩ : device_information)],
      ∀ e ∈ (get_available_devices_core specBudgetConfig specSnapshot).drop
        specBudgetConfig.gpu_count,
        e.memory.free ≤ d.memory.free :=
  (C2_policy_extremal specBudgetConfig specSnapshot
    [⟨2, [], ⟨16 * 2 ^ 30, 0, 16 * 2 ^ 30⟩⟩] (by decide)).1 rfl

/-! ## Claim C8 -/

/-- Claim C8: the supervisor classifies the child wait status: a normal
exit (status encoding exit code, low seven bits zero) propagates the exit
code; a signaled termination (low seven bits a signal number 1..126, with
or without the core-dump flag) yields the distinguished status -EINTR, the
reported signal being WTERMSIG; any other wait status (low seven bits
0x7f, as for a stopped child) yields the distinguished status -EAGAIN; and
a failed exec in do_launch yields the distinguished status -ENOEXEC. -/
theorem C8_status_classification (status code : Nat) :
    (code < 256 → supervisorReturn (code * 256) = code) ∧
    (1 ≤ status % 128 → status % 128 ≤ 126 →
      supervisorReturn status = -EINTR ∧ WTERMSIG status = status % 128) ∧
    (status % 128 = 127 → supervisorReturn status = -EAGAIN) ∧
    do_launch_return ExecOutcome.failed = some (-ENOEXEC) := by
  refine ⟨?_, ?_, ?_, rfl⟩
  · intro hc
    have hex : WIFEXITED (code * 256) = true := by
      unfold WIFEXITED
      simp only [Nat.beq_eq_true_eq]
      omega
    have hval : WEXITSTATUS (code * 256) = code := by
      unfold WEXITSTATUS
      omega
    unfold supervisorReturn
    rw [hex, if_pos rfl, hval]
  · intro h1 h2
    have hex : WIFEXITED status = false := by
      unfold WIFEXITED
      simp only [beq_eq_false_iff_ne, ne_eq]
      omega
    have hm1 : (status % 128 + 1) % 256 = status % 128 + 1 := by omega
    have hsig : WIFSIGNALED status = true := by
      unfold WIFSIGNALED signedChar
      rw [hm1, if_pos (by omega : status % 128 + 1 < 128)]
      simp only [decide_eq_true_eq]
      have hfd : Int.fdiv (Int.ofNat (status % 128 + 1)) 2 =
          Int.ofNat ((status % 128 + 1) / 2) := rfl
      rw [hfd]
      exact Int.ofNat_pos.mpr (Nat.div_pos (by omega) (by norm_num))
    refine ⟨?_, rfl⟩
    unfold supervisorReturn
    rw [hex, hsig]
    simp
  · intro h127
    have hex : WIFEXITED status = false := by
      unfold WIFEXITED
      simp only [beq_eq_false_iff_ne, ne_eq]
      omega
    have hsig : WIFSIGNALED status = false := by
      unfold WIFSIGNALED signedChar
      rw [h127]
      decide
    unfold supervisorReturn
    rw [hex, hsig]
    simp

/-- Witness for C8_status_classification: exit code 7, signal 9, a stopped
status 127, and the exec-failure status. -/
theorem C8_witness :
    supervisorReturn (7 * 256) = 7 ∧
    (supervisorReturn 9 = -EINTR ∧ WTERMSIG 9 = 9 % 128) ∧
    supervisorReturn 127 = -EAGAIN ∧
    do_launch_return ExecOutcome.failed = some (-ENOEXEC) :=
  ⟨(C8_status_classification 9 7).1 (by decide),
   (C8_status_classification 9 7).2.1 (by decide) (by decide),
   (C8_status_classification 127 7).2.2.1 (by decide),
   (C8_status_classification 127 7).2.2.2⟩

/-! ## Claim C9 -/

theorem readableSizeSelect_le (v : Nat) :
    ∀ fuel selection, readableSizeSelect v selection fuel ≤ selection + fuel := by
  intro fuel
  induction fuel with
  | zero => intro selection; simp [readableSizeSelect]
  | succ n ih =>
    intro selection
    unfold readableSizeSelect
    split
    · exact le_trans (ih (selection + 1)) (by omega)
    · omega

/-- Half-away-from-zero rounding of value / m misses value by at most m. -/
theorem roundDiv_err (v m : Nat) (hm : 0 < m) :
    roundDiv v m * m ≤ v + m ∧ v ≤ roundDiv v m * m + m := by
  unfold roundDiv
  have h := Nat.div_add_mod (2 * v + m) (2 * m)
  have hr : (2 * v + m) % (2 * m) < 2 * m := Nat.mod_lt _ (by omega)
  set q := (2 * v + m) / (2 * m) with hq
  set r := (2 * v + m) % (2 * m) with hrdef
  have h2 : 2 * (m * q) + r = 2 * v + m := by rw [← h]; ring
  constructor
  · rw [Nat.mul_comm q m]
    generalize m * q = A at h2
    omega
  · rw [Nat.mul_comm q m]
    generalize m * q = A at h2
    omega

/-- Claim C9: formatting an unsigned 64-bit byte count with
get_readable_size and re-parsing the printed rounded integer with the
multiplier of the printed suffix (the size-suffix-map entry for the
lowercased suffix; the bare-bytes suffix B, which carries no map entry,
re-parses as a plain number, multiplier 1) recovers the original value to
within one multiplier unit. -/
theorem C9_roundtrip (v n s : Nat) (_hv : v < 2 ^ 64)
    (hp : get_readable_size_pair v = (n, s)) :
    ∃ mult : Nat,
      ((s = 0 ∧ mult = 1) ∨
        List.lookup (toLowerStr (readableSizeSuffixes.getD s []))
          size_suffix_map = some mult) ∧
      n * mult ≤ v + mult ∧ v ≤ n * mult + mult := by
  have hs : s = readableSizeSelect v 0 5 := by
    have h2 := congrArg Prod.snd hp
    simpa [get_readable_size_pair] using h2.symm
  have hn : n = roundDiv v (1024 ^ s) := by
    have h1 := congrArg Prod.fst hp
    simp only [get_readable_size_pair] at h1
    rw [← h1, hs]
  have hs5 : s ≤ 5 := by
    rw [hs]
    simpa using readableSizeSelect_le v 5 0
  refine ⟨1024 ^ s, ?_, ?_⟩
  · interval_cases s
    · exact Or.inl ⟨rfl, rfl⟩
    all_goals exact Or.inr (by decide)
  · rw [hn]
    exact roundDiv_err v (1024 ^ s) (by positivity)

/-- Witness for C9_roundtrip at 123456789 bytes, printed as 120563KiB. -/
theorem C9_witness :
    ∃ mult : Nat,
      ((1 = 0 ∧ mult = 1) ∨
        List.lookup (toLowerStr (readableSizeSuffixes.getD 1 []))
          size_suffix_map = some mult) ∧
      120563 * mult ≤ 123456789 + mult ∧ 123456789 ≤ 120563 * mult + mult :=
  C9_roundtrip 123456789 120563 1 (by decide) (by decide)

/-! ## Claim C10 -/

/-- Claim C10: the command line --gpus 0 is accepted by the parser, giving
gpu_count = 0; the wait loop then satisfies itself on the very first poll
at elapsed time 0 whatever the device oracle answers (zero devices
included); the selection window is empty for every available list; and the
devices_to_use string stored into CUDA_VISIBLE_DEVICES is the empty
string. -/
theorem C10_zero_gpus (snapshot : Nat → List device_information) (fuel : Nat)
    (avail : List device_information) :
    Configurations.parse ["glaunch".data, "--gpus".data, "0".data, "prog".data] =
      Except.ok { initConfig with gpu_count := 0, break_point := 3 } ∧
    waitLoop { initConfig with gpu_count := 0, break_point := 3 } snapshot
        (fuel + 1) 0 0 =
      WaitOutcome.satisfied 0 1
        (get_available_devices_core
          { initConfig with gpu_count := 0, break_point := 3 } (snapshot 0)) ∧
    selectedDevices { initConfig with gpu_count := 0, break_point := 3 } avail = [] ∧
    devicesToUse
      (selectedIds { initConfig with gpu_count := 0, break_point := 3 } avail) = [] := by
  refine ⟨by decide, ?_, ?_, ?_⟩
  · unfold waitLoop
    rw [if_pos (Nat.zero_le _)]
  · simp [selectedDevices]
  · simp [selectedIds, selectedDevices, devicesToUse, List.intercalate]

/-! ## Claim C7 -/

/-- Options other than the two wait options never touch the wait fields. -/
theorem applyOpt_preserves_wait (k : OptKind) (cfg cfg1 : Configurations)
    (a : Option Str)
    (hk1 : k ≠ OptKind.waitTimeout) (hk2 : k ≠ OptKind.waitInterval)
    (h : applyOpt k cfg a = Except.ok cfg1) :
    cfg1.wait_memory_timeout = cfg.wait_memory_timeout ∧
    cfg1.wait_memory_interval = cfg.wait_memory_interval := by
  cases k <;> cases a <;>
    first
    | exact absurd rfl hk1
    | exact absurd rfl hk2
    | (simp only [applyOpt, parse_gpu_count, parse_memory_estimation, parse_policy,
        full_convert_ull_uint] at h
       repeat' split at h
       all_goals cases h
       all_goals exact ⟨rfl, rfl⟩)

/-- The effect of --wait-timeout on the wait fields. -/
theorem applyOpt_waitTimeout (cfg cfg1 : Configurations) (a : Option Str)
    (h : applyOpt OptKind.waitTimeout cfg a = Except.ok cfg1) :
    ∃ s v, a = some s ∧ duration_saver s = Except.ok v ∧
      cfg1.wait_memory_timeout = v ∧
      cfg1.wait_memory_interval =
        (if cfg.wait_memory_interval = 0 then 60 else cfg.wait_memory_interval) := by
  cases a with
  | none => cases h
  | some s =>
    simp only [applyOpt, parse_wait_memory_timeout] at h
    cases hd : duration_saver s with
    | error e => rw [hd] at h; cases h
    | ok v =>
      rw [hd] at h
      obtain rfl := Except.ok.inj h
      exact ⟨s, v, rfl, hd, rfl, rfl⟩

/-- The effect of --wait-interval on the wait fields. -/
theorem applyOpt_waitInterval (cfg cfg1 : Configurations) (a : Option Str)
    (h : applyOpt OptKind.waitInterval cfg a = Except.ok cfg1) :
    ∃ s v, a = some s ∧ duration_saver s = Except.ok v ∧
      cfg1.wait_memory_interval = v ∧
      cfg1.wait_memory_timeout =
        (if cfg.wait_memory_timeout = 0 then 3600 else cfg.wait_memory_timeout) := by
  cases a with
  | none => cases h
  | some s =>
    simp only [applyOpt, parse_wait_memory_interval] at h
    cases hd : duration_saver s with
    | error e => rw [hd] at h; cases h
    | ok v =>
      rw [hd] at h
      obtain rfl := Except.ok.inj h
      exact ⟨s, v, rfl, hd, rfl, rfl⟩

/-- A successful dispatch applies the matched option parser to the recorded
argument and strictly advances the break point. -/
theorem parser_dispatcher_spec (k : OptKind) (bp : Nat) (args : List Str)
    (cfg cfg1 : Configurations) (bp1 : Nat) (ev : OptEvent)
    (h : parser_dispatcher k bp args cfg = Except.ok (cfg1, bp1, ev)) :
    ∃ a, ev = (k, a) ∧ applyOpt k cfg a = Except.ok cfg1 ∧ bp < bp1 := by
  simp only [parser_dispatcher] at h
  split at h
  · split at h
    · cases h
    · cases happ : applyOpt k cfg
          (if optArgc k = 1 then some (args.getD (bp + 1) []) else none) with
      | error e => rw [happ] at h; cases h
      | ok c =>
        rw [happ] at h
        obtain ⟨rfl, rfl, rfl⟩ :
            c = cfg1 ∧ bp + 1 + optArgc k = bp1 ∧
              (k, if optArgc k = 1 then some (args.getD (bp + 1) []) else none) = ev := by
          have := Except.ok.inj h
          exact ⟨congrArg (fun p => p.1) this,
                 congrArg (fun p => p.2.1) this,
                 congrArg (fun p => p.2.2) this⟩
        exact ⟨_, rfl, happ, by omega⟩
  · split at h
    · cases happ : applyOpt k cfg
          (some ((args.getD bp []).drop ((optName k).length + 1))) with
      | error e => rw [happ] at h; cases h
      | ok c =>
        rw [happ] at h
        obtain ⟨rfl, rfl, rfl⟩ :
            c = cfg1 ∧ bp + 1 = bp1 ∧
              (k, some ((args.getD bp []).drop ((optName k).length + 1))) = ev := by
          have := Except.ok.inj h
          exact ⟨congrArg (fun p => p.1) this,
                 congrArg (fun p => p.2.1) this,
                 congrArg (fun p => p.2.2) this⟩
        exact ⟨_, rfl, happ, by omega⟩
    · cases h

/-- A successful tryOptions run is a successful dispatch of one of the
tried options. -/
theorem tryOptions_spec (opts : List OptKind) (bp : Nat) (args : List Str)
    (cfg cfg1 : Configurations) (bp1 : Nat) (ev : OptEvent)
    (h : tryOptions bp args cfg opts = Except.ok (cfg1, bp1, ev)) :
    ∃ k a, ev = (k, a) ∧ applyOpt k cfg a = Except.ok cfg1 ∧ bp < bp1 := by
  induction opts with
  | nil => cases h
  | cons k rest ih =>
    unfold tryOptions at h
    split at h
    · obtain ⟨a, hev, happ, hbp⟩ := parser_dispatcher_spec k bp args cfg cfg1 bp1 ev h
      exact ⟨k, a, hev, happ, hbp⟩
    · exact ih h

/-- One applied option preserves the coupling invariant, the wait flags
absorbing the applied option. -/
theorem waitInv_step (sT sI : Bool) (k : OptKind) (a : Option Str)
    (cfg cfg1 : Configurations)
    (h : applyOpt k cfg a = Except.ok cfg1)
    (hInv : WaitFieldsInv sT sI cfg)
    (hnz : ∀ s v, a = some s →
      (k = OptKind.waitTimeout ∨ k = OptKind.waitInterval) →
      duration_saver s = Except.ok v → v ≠ 0) :
    WaitFieldsInv (sT || decide (k = OptKind.waitTimeout))
      (sI || decide (k = OptKind.waitInterval)) cfg1 := by
  by_cases hkT : k = OptKind.waitTimeout
  · subst hkT
    obtain ⟨s, v, ha, hd, ht, hi⟩ := applyOpt_waitTimeout cfg cfg1 a h
    have hv : v ≠ 0 := hnz s v ha (Or.inl rfl) hd
    cases sT <;> cases sI <;>
      simp only [WaitFieldsInv, decide_eq_true_eq, Bool.or_true, Bool.or_false,
        Bool.true_or, Bool.false_or, decide_True, decide_False] at hInv ⊢ <;>
      refine ⟨by rw [ht]; exact hv, ?_⟩ <;> rw [hi] <;> simp_all
  · by_cases hkI : k = OptKind.waitInterval
    · subst hkI
      obtain ⟨s, v, ha, hd, hi, ht⟩ := applyOpt_waitInterval cfg cfg1 a h
      have hv : v ≠ 0 := hnz s v ha (Or.inr rfl) hd
      cases sT <;> cases sI <;>
        simp only [WaitFieldsInv, decide_eq_true_eq, Bool.or_true, Bool.or_false,
          Bool.true_or, Bool.false_or, decide_True, decide_False] at hInv ⊢ <;>
        refine ⟨?_, by rw [hi]; exact hv⟩ <;> rw [ht] <;> simp_all
    · obtain ⟨ht, hi⟩ := applyOpt_preserves_wait k cfg cfg1 a hkT hkI h
      have hdT : decide (k = OptKind.waitTimeout) = false := by
        simp [hkT]
      have hdI : decide (k = OptKind.waitInterval) = false := by
        simp [hkI]
      rw [hdT, hdI, Bool.or_false, Bool.or_false]
      cases sT <;> cases sI <;>
        simp only [WaitFieldsInv] at hInv ⊢ <;>
        rw [ht, hi] <;> exact hInv

/-- The option loop preserves the wait-field coupling invariant, the flags
absorbing every option occurrence of the trace. -/
theorem parseLoopT_waitInv (args : List Str) (fuel : Nat) :
    ∀ bp cfg sT sI cfg2 trace,
      parseLoopT args fuel bp cfg = Except.ok (cfg2, trace) →
      WaitFieldsInv sT sI cfg →
      NonzeroWaitValues trace →
      WaitFieldsInv
        (sT || trace.any fun e => decide (e.1 = OptKind.waitTimeout))
        (sI || trace.any fun e => decide (e.1 = OptKind.waitInterval)) cfg2 := by
  induction fuel with
  | zero => intro bp cfg sT sI cfg2 trace h _ _; cases h
  | succ n ih =>
    intro bp cfg sT sI cfg2 trace h hInv hnz
    simp only [parseLoopT] at h
    split at h
    · split at h
      · cases h
        simp only [List.any_nil, Bool.or_false]
        cases sT <;> cases sI <;> exact hInv
      · cases htry : tryOptions bp args cfg optionsOrder with
        | error e => rw [htry] at h; cases h
        | ok res =>
          obtain ⟨cfg1, bp1, ev⟩ := res
          rw [htry] at h
          dsimp only at h
          cases hrec : parseLoopT args n bp1 cfg1 with
          | error e => rw [hrec] at h; cases h
          | ok res2 =>
            obtain ⟨cfg3, evs⟩ := res2
            rw [hrec] at h
            have hpair := Except.ok.inj h
            have hc2 : cfg3 = cfg2 := congrArg Prod.fst hpair
            have htr : ev :: evs = trace := congrArg Prod.snd hpair
            subst hc2
            subst htr
            obtain ⟨k, a, hev, happ, _⟩ :=
              tryOptions_spec optionsOrder bp args cfg cfg1 bp1 ev htry
            subst hev
            have hnzHead : ∀ s v, a = some s →
                (k = OptKind.waitTimeout ∨ k = OptKind.waitInterval) →
                duration_saver s = Except.ok v → v ≠ 0 := by
              intro s v hs hk v0
              subst hs
              exact hnz k s (List.mem_cons_self _ _) hk v v0
            have hstep := waitInv_step sT sI k a cfg cfg1 happ hInv hnzHead
            have htail : NonzeroWaitValues evs := by
              intro k2 s2 hmem hk2 v2 hd2
              exact hnz k2 s2 (List.mem_cons_of_mem _ hmem) hk2 v2 hd2
            have hrec2 := ih bp1 cfg1 _ _ cfg3 evs hrec hstep htail
            simpa [List.any_cons, Bool.or_assoc] using hrec2

    · cases h
      simp only [List.any_nil, Bool.or_false]
      cases sT <;> cases sI <;> exact hInv

/-- Claim C7 counterexample: the command line --wait-timeout 0 is accepted
(option supplied, its event in the trace) yet leaves wait_memory_timeout
zero after parsing, so the claimed both-nonzero invariant fails. -/
theorem C7_counterexample :
    Configurations.parseT
        ["glaunch".data, "--wait-timeout".data, "0".data, "prog".data] =
      Except.ok
        ({ initConfig with
            wait_memory_timeout := 0
            wait_memory_interval := 60
            break_point := 3 },
         [(OptKind.waitTimeout, some "0".data)]) ∧
    (OptKind.waitTimeout, some "0".data) ∈
      [(OptKind.waitTimeout, some "0".data)] ∧
    ({ initConfig with
        wait_memory_timeout := 0
        wait_memory_interval := 60
        break_point := 3 } : Configurations).wait_memory_timeout = 0 := by decide

/-- Claim C7 (amended): for every command line the parser accepts, if a
wait option was supplied (its occurrence is in the option trace) and every
supplied wait duration value is nonzero, then after parsing both
wait_memory_timeout and wait_memory_interval are nonzero, the unsupplied
one holding its policy default (3600-second timeout, 60-second
interval). -/
theorem C7_wait_coupling (args : List Str) (cfg : Configurations)
    (trace : List OptEvent)
    (h : Configurations.parseT args = Except.ok (cfg, trace))
    (hnz : NonzeroWaitValues trace)
    (hsup : (trace.any fun e => decide (e.1 = OptKind.waitTimeout)) = true ∨
            (trace.any fun e => decide (e.1 = OptKind.waitInterval)) = true) :
    cfg.wait_memory_timeout ≠ 0 ∧ cfg.wait_memory_interval ≠ 0 ∧
    ((trace.any fun e => decide (e.1 = OptKind.waitInterval)) = false →
      cfg.wait_memory_interval = 60) ∧
    ((trace.any fun e => decide (e.1 = OptKind.waitTimeout)) = false →
      cfg.wait_memory_timeout = 3600) := by
  have h0 : WaitFieldsInv false false initConfig := ⟨rfl, rfl⟩
  have hInv := parseLoopT_waitInv args (args.length + 1) 1 initConfig false false
    cfg trace h h0 hnz
  simp only [Bool.false_or] at hInv
  cases hT : (trace.any fun e => decide (e.1 = OptKind.waitTimeout)) <;>
    cases hI : (trace.any fun e => decide (e.1 = OptKind.waitInterval)) <;>
    rw [hT, hI] at hInv <;>
    simp only [WaitFieldsInv] at hInv
  · rcases hsup with hs | hs
    · rw [hT] at hs; cases hs
    · rw [hI] at hs; cases hs
  · exact ⟨by omega, hInv.2, fun hc => Bool.noConfusion hc, fun _ => hInv.1⟩
  · exact ⟨hInv.1, by rw [hInv.2]; omega, fun _ => hInv.2, fun hc => Bool.noConfusion hc⟩
  · exact ⟨hInv.1, hInv.2, fun hc => Bool.noConfusion hc, fun hc => Bool.noConfusion hc⟩

/-- Witness for C7_wait_coupling on the accepted command line
--wait-timeout 5: the interval receives its 60-second default. -/
theorem C7_witness :
    ({ initConfig with
        wait_memory_timeout := 5
        wait_memory_interval := 60
        break_point := 3 } : Configurations).wait_memory_timeout ≠ 0 ∧
    ({ initConfig with
        wait_memory_timeout := 5
        wait_memory_interval := 60
        break_point := 3 } : Configurations).wait_memory_interval ≠ 0 ∧
    (([(OptKind.waitTimeout, some "5".data)].any
        fun e => decide (e.1 = OptKind.waitInterval)) = false →
      ({ initConfig with
          wait_memory_timeout := 5
          wait_memory_interval := 60
          break_point := 3 } : Configurations).wait_memory_interval = 60) ∧
    (([(OptKind.waitTimeout, some "5".data)].any
        fun e => decide (e.1 = OptKind.waitTimeout)) = false →
      ({ initConfig with
          wait_memory_timeout := 5
          wait_memory_interval := 60
          break_point := 3 } : Configurations).wait_memory_timeout = 3600) :=
  C7_wait_coupling ["glaunch".data, "--wait-timeout".data, "5".data, "p".data]
    { initConfig with
      wait_memory_timeout := 5
      wait_memory_interval := 60
      break_point := 3 }
    [(OptKind.waitTimeout, some "5".data)]
    (by decide)
    (by
      intro k s hmem hk v hd
      have hs : s = "5".data := by
        have h2 := congrArg Prod.snd (List.mem_singleton.mp hmem)
        exact Option.some.inj h2
      subst hs
      have h5 : duration_saver "5".data = Except.ok 5 := by decide
      rw [h5] at hd
      obtain rfl := Except.ok.inj hd
      decide)
    (Or.inl (by decide))
